import Mathlib

/-
  Verification development for the tinydb single-file page store
  (src/tinydb.cpp). The StorageManager class and its page layout
  constants are embedded shallowly: the database file is a byte store
  with an explicit size, machine arithmetic on uint32 values is made
  explicit with a modulus of 2 ^ 32, and the stream error flags that
  the source inspects (seek failure, read failure with or without the
  end-of-file bit, write failure) are supplied as explicit outcome
  records for each call.
-/

set_option maxHeartbeats 1000000

namespace TinyDb

/-- Bytes are natural numbers; every value the model stores is below 256. -/
abbrev Byte := Nat

/-- A page-sized buffer: byte index to byte value. Only indices below
PAGE_SIZE are meaningful. -/
abbrev Page := Nat → Byte

/-- Source: constexpr uint32_t PAGE_SIZE = 4096. -/
def PAGE_SIZE : Nat := 4096

/-- Source: constexpr uint32_t MAGIC_NUMBER = 0x12345678. -/
def MAGIC_NUMBER : Nat := 0x12345678

/-- Source: constexpr uint32_t MAX_IDENTIFIER_LENGTH = 64. -/
def MAX_IDENTIFIER_LENGTH : Nat := 64

/-- Source: constexpr uint32_t MAX_COLUMNS = 32. -/
def MAX_COLUMNS : Nat := 32

/-- Modulus of unsigned 32 bit arithmetic, used wherever the source
computes with uint32 values. -/
def UINT32_MOD : Nat := 2 ^ 32

/-- Source: enum class ErrorCode. -/
inductive ErrorCode where
  | SUCCESS
  | FILE_IO_ERROR
  | PAGE_ALLOCATION_FAILURE
  | INVALID_INPUT
  | OUT_OF_MEMORY
deriving DecidableEq

/-- Source: struct PageHeader with three packed uint32 fields. -/
structure PageHeader where
  pageType : Nat
  nextPage : Nat
  entryCount : Nat

/-- Packed byte size of PageHeader: three uint32 fields of four bytes. -/
def sizeof_PageHeader : Nat := 12

/-- Source: constexpr uint32_t KEY_PAIR_SIZE = sizeof(uint32_t) + sizeof(uint32_t). -/
def KEY_PAIR_SIZE : Nat := 4 + 4

/-- Source: constexpr uint32_t MAX_KEYS =
(PAGE_SIZE - sizeof(PageHeader) - sizeof(uint32_t)) / KEY_PAIR_SIZE. -/
def MAX_KEYS : Nat := (PAGE_SIZE - sizeof_PageHeader - 4) / KEY_PAIR_SIZE

/-- Source: constexpr uint32_t MAX_RECORDS = MAX_KEYS. -/
def MAX_RECORDS : Nat := MAX_KEYS

/-- Source: constexpr uint32_t MIN_KEYS = MAX_KEYS / 2. -/
def MIN_KEYS : Nat := MAX_KEYS / 2

/-- Source: struct InteriorNode. The key array is declared as
uint32_t keys[MAX_COLUMNS] and the child array as
uint32_t childPointers[MAX_COLUMNS + 1]. -/
structure InteriorNode where
  header : PageHeader
  keyCount : Nat
  keys : Fin MAX_COLUMNS → Nat
  childPointers : Fin (MAX_COLUMNS + 1) → Nat

/-- Number of key slots the InteriorNode layout provides: the declared
length of the keys array. -/
def interiorKeyCapacity : Nat := MAX_COLUMNS

/-- Number of child pointer slots the InteriorNode layout provides: the
declared length of the childPointers array. -/
def interiorChildCapacity : Nat := MAX_COLUMNS + 1

/-- The database file: a byte store with an explicit size in bytes.
Indices at or above size are irrelevant (the model keeps them zero). -/
structure DBFile where
  size : Nat
  data : Nat → Byte

/-- The in-memory state of the StorageManager: whether the fstream
handle is open, and the pageCount member (a uint32 in the source). -/
structure StorageManager where
  isOpen : Bool
  pageCount : Nat
deriving DecidableEq

/-- Stream outcome of one readPage call: seekg failure, and a read
failure that does not set the end-of-file bit. A read that runs into
the end of the file (failbit together with eofbit) is determined by
the file size, not by this record. -/
structure ReadOutcome where
  seekFail : Bool
  readFail : Bool

/-- Stream outcome of one writePage call: seekp failure and write failure. -/
structure WriteOutcome where
  seekFail : Bool
  writeFail : Bool

/-- Stream outcome of one open call on a path with no existing file:
failure to create the file, and failure to reopen it afterwards. -/
structure OpenOutcome where
  createFail : Bool
  reopenFail : Bool

/-- All stream operations succeed. -/
def okRead : ReadOutcome := ⟨false, false⟩

/-- All stream operations succeed. -/
def okWrite : WriteOutcome := ⟨false, false⟩

/-- All stream operations succeed. -/
def okOpen : OpenOutcome := ⟨false, false⟩

/-- Byte i of the little-endian in-memory representation of a uint32
value, as laid down by memcpy of the value into a char buffer. -/
def uint32Byte (v i : Nat) : Byte := v / 256 ^ i % 256

/-- Write len bytes of buffer b into file f at byte offset off,
extending the file when the write reaches past its current end
(a seek beyond the end followed by a write fills the gap with zeros). -/
def writeBytes (f : DBFile) (off : Nat) (b : Page) (len : Nat) : DBFile :=
  { size := max f.size (off + len),
    data := fun i =>
      if off ≤ i ∧ i < off + len then b (i - off)
      else if i < f.size then f.data i
      else 0 }

/-- The empty file created for a path that did not exist. -/
def emptyFile : DBFile := ⟨0, fun _ => 0⟩

/-- Source, StorageManager::open, fresh-file branch:
char header[PAGE_SIZE] = \x7b0\x7d; memcpy(header, &MAGIC_NUMBER, sizeof(MAGIC_NUMBER)). -/
def headerBuf : Page := fun i => if i < 4 then uint32Byte MAGIC_NUMBER i else 0

/-- The byte offset passed to seekg and seekp:
pageNumber * PAGE_SIZE computed on uint32 values, hence modulo 2 ^ 32. -/
def pageOffset (pageNumber : Nat) : Nat := pageNumber * PAGE_SIZE % UINT32_MOD

/-- Source: StorageManager::open (lines 232 to 270). The world is the
file at the given path, or none when no file exists there. An existing
file is never written; a missing file is created and its header page
is written. The source casts fileSize / PAGE_SIZE to uint32. -/
def openDB (world : Option DBFile) (io : OpenOutcome) :
    ErrorCode × StorageManager × Option DBFile :=
  match world with
  | some f =>
      if f.size % PAGE_SIZE ≠ 0 then
        (ErrorCode.FILE_IO_ERROR, ⟨true, 0⟩, some f)
      else
        (ErrorCode.SUCCESS, ⟨true, f.size / PAGE_SIZE % UINT32_MOD⟩, some f)
  | none =>
      if io.createFail then (ErrorCode.FILE_IO_ERROR, ⟨false, 0⟩, none)
      else if io.reopenFail then (ErrorCode.FILE_IO_ERROR, ⟨false, 0⟩, some emptyFile)
      else
        (ErrorCode.SUCCESS, ⟨true, 1⟩, some (writeBytes emptyFile 0 headerBuf PAGE_SIZE))

/-- Source: StorageManager::close (lines 275 to 279). -/
def close (sm : StorageManager) : ErrorCode × StorageManager :=
  (ErrorCode.SUCCESS, ⟨false, sm.pageCount⟩)

/-- Source: StorageManager::readPage (lines 284 to 296). bufferNull
models buffer == nullptr. The source treats a failed read whose
eofbit is set as success: the check is file.fail() && !file.eof().
A read of PAGE_SIZE bytes sets the eofbit exactly when it reaches
past the end of the file; in that case no full page was read and the
model returns none together with SUCCESS. -/
def readPage (sm : StorageManager) (f : DBFile) (pageNumber : Nat)
    (bufferNull : Bool) (io : ReadOutcome) : ErrorCode × Option Page :=
  if !sm.isOpen || bufferNull then (ErrorCode.INVALID_INPUT, none)
  else if sm.pageCount ≤ pageNumber then (ErrorCode.INVALID_INPUT, none)
  else if io.seekFail then (ErrorCode.FILE_IO_ERROR, none)
  else if io.readFail then (ErrorCode.FILE_IO_ERROR, none)
  else if f.size < pageOffset pageNumber + PAGE_SIZE then
    (ErrorCode.SUCCESS, none)
  else
    (ErrorCode.SUCCESS, some (fun i => f.data (pageOffset pageNumber + i)))

/-- Source: StorageManager::writePage (lines 301 to 314). buffer = none
models buffer == nullptr. On success PAGE_SIZE bytes are written at
the uint32 byte offset pageOffset pageNumber. -/
def writePage (sm : StorageManager) (f : DBFile) (pageNumber : Nat)
    (buffer : Option Page) (io : WriteOutcome) : ErrorCode × DBFile :=
  match buffer with
  | none => (ErrorCode.INVALID_INPUT, f)
  | some b =>
      if !sm.isOpen then (ErrorCode.INVALID_INPUT, f)
      else if sm.pageCount ≤ pageNumber then (ErrorCode.INVALID_INPUT, f)
      else if io.seekFail then (ErrorCode.FILE_IO_ERROR, f)
      else if io.writeFail then (ErrorCode.FILE_IO_ERROR, f)
      else (ErrorCode.SUCCESS, writeBytes f (pageOffset pageNumber) b PAGE_SIZE)

/-- The zero page used by StorageManager::writeZeroPage (lines 220 to 223). -/
def zeroPage : Page := fun _ => 0

/-- Source: StorageManager::allocatePage (lines 319 to 326). The out
parameter pageNumber is assigned before the write, pageCount is a
uint32 and is incremented before writeZeroPage runs, and the result
code is the one writeZeroPage (hence writePage) returns. -/
def allocatePage (sm : StorageManager) (f : DBFile) (io : WriteOutcome) :
    ErrorCode × Option Nat × StorageManager × DBFile :=
  if !sm.isOpen then (ErrorCode.FILE_IO_ERROR, none, sm, f)
  else
    let pageNumber := sm.pageCount
    let sm2 : StorageManager := ⟨sm.isOpen, (sm.pageCount + 1) % UINT32_MOD⟩
    let r := writePage sm2 f pageNumber (some zeroPage) io
    (r.1, some pageNumber, sm2, r.2)

/-- Source: StorageManager::freePage (lines 331 to 338): validation only. -/
def freePage (sm : StorageManager) (pageNumber : Nat) : ErrorCode :=
  if !sm.isOpen then ErrorCode.FILE_IO_ERROR
  else if sm.pageCount ≤ pageNumber then ErrorCode.INVALID_INPUT
  else ErrorCode.SUCCESS

/-- Source: StorageManager::getPageCount (line 343). -/
def getPageCount (sm : StorageManager) : Nat := sm.pageCount

/-- The manager state right after a fresh open. -/
def sm0 : StorageManager := ⟨true, 1⟩

/-- The file produced by a fresh open: header page only. -/
def f0 : DBFile := writeBytes emptyFile 0 headerBuf PAGE_SIZE

/-- One allocatePage call with all stream operations succeeding:
the result code with the returned page number, and the next state. -/
def allocStep (s : StorageManager × DBFile) :
    (ErrorCode × Option Nat) × StorageManager × DBFile :=
  let r := allocatePage s.1 s.2 okWrite
  ((r.1, r.2.1), r.2.2.1, r.2.2.2)

/-- State after k allocatePage calls starting from a freshly created file. -/
def allocN : Nat → StorageManager × DBFile
  | 0 => (sm0, f0)
  | Nat.succ k => (allocStep (allocN k)).2

/-- Result of allocatePage call number k + 1 in that sequence. -/
def allocResult (k : Nat) : ErrorCode × Option Nat := (allocStep (allocN k)).1

/-- The round trip of claim C3: after N allocations from a fresh file,
writePage n b, close, reopen the same path, readPage n. -/
def roundTrip (N n : Nat) (b : Page) : ErrorCode × Option Page :=
  let s := allocN N
  let w := writePage s.1 s.2 n (some b) okWrite
  let c := close s.1
  let o := openDB (some w.2) okOpen
  let sm3 := (c.2, o.2.1).2
  readPage sm3 w.2 n false okRead

/-- One call against an open store, for reachability statements. -/
inductive Op where
  | read (pageNumber : Nat) (bufferNull : Bool) (io : ReadOutcome)
  | write (pageNumber : Nat) (buffer : Option Page) (io : WriteOutcome)
  | alloc (io : WriteOutcome)
  | free (pageNumber : Nat)

/-- Run one call, returning its code and the next state. -/
def runOp (s : StorageManager × DBFile) : Op → ErrorCode × StorageManager × DBFile
  | Op.read n bn io => ((readPage s.1 s.2 n bn io).1, s.1, s.2)
  | Op.write n b io =>
      let r := writePage s.1 s.2 n b io
      (r.1, s.1, r.2)
  | Op.alloc io =>
      let r := allocatePage s.1 s.2 io
      (r.1, r.2.2.1, r.2.2.2)
  | Op.free n => (freePage s.1 n, s.1, s.2)

/-- Run a sequence of calls. -/
def runOps (s : StorageManager × DBFile) : List Op → StorageManager × DBFile
  | [] => s
  | op :: ops => runOps (runOp s op).2 ops

/-- The bookkeeping invariant of claim C6: pageCount matches the file
size in pages, and the file size is a whole number of pages. -/
def consistent (s : StorageManager × DBFile) : Prop :=
  s.1.pageCount = s.2.size / PAGE_SIZE ∧ s.2.size % PAGE_SIZE = 0

/-- Side condition of the amended claim C6 on one call: an allocatePage
call must succeed from a page count whose byte offset does not wrap. -/
def okStep (s : StorageManager × DBFile) : Op → Prop
  | Op.alloc io => s.1.pageCount < 2 ^ 20 ∧ (runOp s (Op.alloc io)).1 = ErrorCode.SUCCESS
  | _ => True

/-- Side condition of the amended claim C6 on a call sequence. -/
def okRun : StorageManager × DBFile → List Op → Prop
  | _, [] => True
  | s, op :: ops => okStep s op ∧ okRun (runOp s op).2 ops

/-- Numeric value of the uint32 modulus. -/
lemma UINT32_MOD_eq : UINT32_MOD = 4294967296 := by norm_num [UINT32_MOD]

lemma PAGE_SIZE_eq : PAGE_SIZE = 4096 := rfl

lemma two_pow_20 : (2 : Nat) ^ 20 = 1048576 := by norm_num

lemma writeBytes_size (f : DBFile) (off : Nat) (b : Page) (len : Nat) :
    (writeBytes f off b len).size = max f.size (off + len) := rfl

lemma writeBytes_data_in (f : DBFile) (off : Nat) (b : Page) (len i : Nat)
    (h1 : off ≤ i) (h2 : i < off + len) :
    (writeBytes f off b len).data i = b (i - off) := by
  simp [writeBytes, h1, h2]

lemma writeBytes_data_lo (f : DBFile) (off : Nat) (b : Page) (len i : Nat)
    (h : ¬(off ≤ i ∧ i < off + len)) (h2 : i < f.size) :
    (writeBytes f off b len).data i = f.data i := by
  simp only [writeBytes]
  rw [if_neg h, if_pos h2]

lemma writeBytes_data_out (f : DBFile) (off : Nat) (b : Page) (len i : Nat)
    (h : ¬(off ≤ i ∧ i < off + len)) (h2 : f.size ≤ i) :
    (writeBytes f off b len).data i = 0 := by
  simp only [writeBytes]
  rw [if_neg h, if_neg (Nat.not_lt.mpr h2)]

lemma f0_size : f0.size = PAGE_SIZE := rfl

lemma f0_data_lt (i : Nat) (h : i < PAGE_SIZE) : f0.data i = headerBuf i := by
  have := writeBytes_data_in emptyFile 0 headerBuf PAGE_SIZE i (Nat.zero_le i) (by omega)
  simpa using this

lemma f0_data_ge (i : Nat) (h : PAGE_SIZE ≤ i) : f0.data i = 0 := by
  have := writeBytes_data_out emptyFile 0 headerBuf PAGE_SIZE i (by omega) (Nat.zero_le i)
  simpa using this

lemma pageOffset_small (n : Nat) (h : n * PAGE_SIZE < UINT32_MOD) :
    pageOffset n = n * PAGE_SIZE :=
  Nat.mod_eq_of_lt h

/-- The seek offset of any in-range page fits inside a file whose size
agrees with the page count; this is what keeps every writePage call,
wrapped or not, inside the current end of the file. -/
lemma pageOffset_le (n pc size : Nat) (h1 : n < pc) (h2 : pc = size / PAGE_SIZE)
    (h3 : size % PAGE_SIZE = 0) : pageOffset n + PAGE_SIZE ≤ size := by
  simp only [pageOffset, PAGE_SIZE, UINT32_MOD] at *
  omega

lemma writePage_ok (sm : StorageManager) (f : DBFile) (n : Nat) (b : Page)
    (h1 : sm.isOpen = true) (h2 : n < sm.pageCount) :
    writePage sm f n (some b) okWrite =
      (ErrorCode.SUCCESS, writeBytes f (pageOffset n) b PAGE_SIZE) := by
  simp [writePage, h1, okWrite, Nat.not_le.mpr h2]

lemma readPage_ok (sm : StorageManager) (f : DBFile) (n : Nat)
    (h1 : sm.isOpen = true) (h2 : n < sm.pageCount)
    (h3 : pageOffset n + PAGE_SIZE ≤ f.size) :
    readPage sm f n false okRead =
      (ErrorCode.SUCCESS, some fun i => f.data (pageOffset n + i)) := by
  simp [readPage, h1, okRead, Nat.not_le.mpr h2, Nat.not_lt.mpr h3]

lemma readPage_out_of_range (sm : StorageManager) (f : DBFile) (n : Nat)
    (bn : Bool) (io : ReadOutcome) (h2 : sm.pageCount ≤ n) :
    readPage sm f n bn io = (ErrorCode.INVALID_INPUT, none) := by
  cases hb : (!sm.isOpen || bn) <;> simp [readPage, hb, h2]

lemma openDB_existing (f : DBFile) (io : OpenOutcome) (h : f.size % PAGE_SIZE = 0) :
    openDB (some f) io =
      (ErrorCode.SUCCESS, ⟨true, f.size / PAGE_SIZE % UINT32_MOD⟩, some f) := by
  simp [openDB, h]

lemma allocatePage_ok (sm : StorageManager) (f : DBFile)
    (h1 : sm.isOpen = true) (h2 : sm.pageCount + 1 < UINT32_MOD) :
    allocatePage sm f okWrite =
      (ErrorCode.SUCCESS, some sm.pageCount, ⟨true, sm.pageCount + 1⟩,
        writeBytes f (pageOffset sm.pageCount) zeroPage PAGE_SIZE) := by
  have hm : (sm.pageCount + 1) % UINT32_MOD = sm.pageCount + 1 := Nat.mod_eq_of_lt h2
  have hw := writePage_ok ⟨true, sm.pageCount + 1⟩ f
    sm.pageCount zeroPage rfl (Nat.lt_succ_self sm.pageCount)
  simp [allocatePage, h1, hm, hw]

lemma allocN_succ (k : Nat) : allocN (k + 1) = (allocStep (allocN k)).2 := rfl

lemma allocResult_eq (k : Nat) : allocResult k = (allocStep (allocN k)).1 := rfl

lemma allocStep_eq (s : StorageManager × DBFile) (c : Nat)
    (h1 : s.1 = ⟨true, c⟩) (h2 : c + 1 < UINT32_MOD) :
    allocStep s = ((ErrorCode.SUCCESS, some c), ⟨true, c + 1⟩,
      writeBytes s.2 (pageOffset c) zeroPage PAGE_SIZE) := by
  have ha := allocatePage_ok ⟨true, c⟩ s.2 rfl h2
  simp only [allocStep, h1]
  rw [ha]

/-- Closed form of the state after k allocatePage calls on a freshly
created file, while no page offset has wrapped: the page count is
k + 1, the file holds k + 1 pages, and every byte agrees with the
fresh file (header page, then zero-filled pages). -/
lemma allocN_spec (k : Nat) (h : k < 2 ^ 20) :
    (allocN k).1 = ⟨true, k + 1⟩ ∧
    (allocN k).2.size = (k + 1) * PAGE_SIZE ∧
    ∀ i, (allocN k).2.data i = f0.data i := by
  induction k with
  | zero =>
      refine ⟨rfl, by simpa using f0_size.symm, fun i => rfl⟩
  | succ k ih =>
      obtain ⟨h1, h2, h3⟩ := ih (by omega)
      have hlt : (k + 1) * PAGE_SIZE < UINT32_MOD := by
        rw [PAGE_SIZE_eq, UINT32_MOD_eq]
        have h20 := two_pow_20
        omega
      have hoff : pageOffset (k + 1) = (k + 1) * PAGE_SIZE := pageOffset_small _ hlt
      have hs := allocStep_eq (allocN k) (k + 1) h1
        (by rw [UINT32_MOD_eq]; have h20 := two_pow_20; omega)
      rw [allocN_succ, hs]
      refine ⟨rfl, ?_, ?_⟩
      · rw [writeBytes_size, h2, hoff]
        have : (k + 1) * PAGE_SIZE + PAGE_SIZE = (k + 2) * PAGE_SIZE := by ring
        rw [this]
        exact Nat.max_eq_right (by omega)
      · intro i
        rw [hoff]
        by_cases hin : (k + 1) * PAGE_SIZE ≤ i ∧ i < (k + 1) * PAGE_SIZE + PAGE_SIZE
        · rw [writeBytes_data_in _ _ _ _ _ hin.1 hin.2]
          have : PAGE_SIZE ≤ i := le_trans (by rw [PAGE_SIZE_eq]; omega) hin.1
          rw [f0_data_ge i this]
          rfl
        · by_cases hlo : i < (allocN k).2.size
          · rw [writeBytes_data_lo _ _ _ _ _ hin hlo]
            exact h3 i
          · rw [writeBytes_data_out _ _ _ _ _ hin (Nat.not_lt.mp hlo)]
            have : PAGE_SIZE ≤ i := by
              rw [h2] at hlo
              rw [PAGE_SIZE_eq] at *
              omega
            exact (f0_data_ge i this).symm

/-- writePage never changes the size of a file whose size agrees with
the page count: a valid page number addresses bytes inside the file
even when the uint32 offset wraps. -/
lemma writePage_size_eq (sm : StorageManager) (f : DBFile) (n : Nat)
    (b : Option Page) (io : WriteOutcome) (h : consistent (sm, f)) :
    ((writePage sm f n b io).2).size = f.size := by
  obtain ⟨h1, h2⟩ := h
  rcases b with _ | b
  · rfl
  · simp only [writePage]
    split
    · rfl
    · split
      · rfl
      · split
        · rfl
        · split
          · rfl
          · next hno hc _ _ =>
              rw [writeBytes_size]
              have hle : pageOffset n + PAGE_SIZE ≤ f.size :=
                pageOffset_le n sm.pageCount f.size (Nat.not_le.mp hc) h1 h2
              exact Nat.max_eq_left hle

lemma runOp_consistent (s : StorageManager × DBFile) (op : Op)
    (h : consistent s) (hok : okStep s op) : consistent (runOp s op).2 := by
  obtain ⟨h1, h2⟩ := h
  cases op with
  | read n bn io => exact ⟨h1, h2⟩
  | free n => exact ⟨h1, h2⟩
  | write n b io =>
      have hs := writePage_size_eq s.1 s.2 n b io ⟨h1, h2⟩
      exact ⟨by simpa [runOp, hs] using h1, by simpa [runOp, hs] using h2⟩
  | alloc io =>
      obtain ⟨hlt, hrc⟩ := hok
      cases hOpen : s.1.isOpen with
      | false => simp [runOp, allocatePage, hOpen] at hrc
      | true =>
          have hm : (s.1.pageCount + 1) % UINT32_MOD = s.1.pageCount + 1 := by
            rw [UINT32_MOD_eq]
            have h20 := two_pow_20
            exact Nat.mod_eq_of_lt (by omega)
          have hc : ¬((s.1.pageCount + 1) ≤ s.1.pageCount) := by omega
          cases hs1 : io.seekFail with
          | true =>
              simp [runOp, allocatePage, writePage, hOpen, hm, hc, hs1] at hrc
          | false =>
              cases hs2 : io.writeFail with
              | true =>
                  simp [runOp, allocatePage, writePage, hOpen, hm, hc, hs1, hs2] at hrc
              | false =>
                  have hoff : pageOffset s.1.pageCount = s.1.pageCount * PAGE_SIZE := by
                    refine pageOffset_small _ ?_
                    rw [PAGE_SIZE_eq, UINT32_MOD_eq]
                    have h20 := two_pow_20
                    omega
                  have hsz : s.2.size = s.1.pageCount * PAGE_SIZE := by
                    rw [PAGE_SIZE_eq] at *
                    omega
                  constructor
                  · simp only [runOp, allocatePage, writePage, hOpen, hm, hs1, hs2,
                      Bool.not_true, Bool.false_eq_true, if_false, if_neg hc]
                    rw [writeBytes_size, hoff, hsz]
                    rw [PAGE_SIZE_eq] at *
                    omega
                  · simp only [runOp, allocatePage, writePage, hOpen, hm, hs1, hs2,
                      Bool.not_true, Bool.false_eq_true, if_false, if_neg hc]
                    rw [writeBytes_size, hoff, hsz]
                    rw [PAGE_SIZE_eq] at *
                    omega

lemma runOps_consistent (s : StorageManager × DBFile) (ops : List Op)
    (h : consistent s) (hok : okRun s ops) : consistent (runOps s ops) := by
  induction ops generalizing s with
  | nil => exact h
  | cons op ops ih =>
      obtain ⟨ho, hos⟩ := hok
      exact ih (runOp s op).2 (runOp_consistent s op h ho) hos

lemma writePage_out_of_range (sm : StorageManager) (f : DBFile) (n : Nat)
    (b : Page) (io : WriteOutcome) (h2 : sm.pageCount ≤ n) :
    writePage sm f n (some b) io = (ErrorCode.INVALID_INPUT, f) := by
  cases ho : sm.isOpen <;> simp [writePage, ho, h2]

/-- C1: open on a path with no existing file creates the file, writes a
full 4096 byte header page whose first four bytes hold the magic
constant 0x12345678 (little endian, as memcpy lays a uint32 down on
this platform) and whose remaining bytes are zero, returns SUCCESS,
and leaves a page count of 1. -/
theorem C1_open_fresh :
    (openDB none okOpen).1 = ErrorCode.SUCCESS ∧
    getPageCount (openDB none okOpen).2.1 = 1 ∧
    (openDB none okOpen).2.2 = some f0 ∧
    f0.size = PAGE_SIZE ∧
    (∀ i, i < 4 → f0.data i = uint32Byte MAGIC_NUMBER i) ∧
    (∀ i, 4 ≤ i → i < PAGE_SIZE → f0.data i = 0) := by
  refine ⟨rfl, rfl, rfl, f0_size, ?_, ?_⟩
  · intro i hi
    rw [f0_data_lt i (by rw [PAGE_SIZE_eq]; omega)]
    simp [headerBuf, hi]
  · intro i h4 hp
    rw [f0_data_lt i hp]
    simp [headerBuf, Nat.not_lt.mpr h4]

/-- Witness for C1: the concrete header bytes of a freshly created file
are 0x78 0x56 0x34 0x12 followed by zeros. -/
theorem C1_open_fresh_witness :
    f0.data 0 = 120 ∧ f0.data 1 = 86 ∧ f0.data 2 = 52 ∧ f0.data 3 = 18 ∧
    f0.data 4 = 0 := by
  have h := C1_open_fresh
  refine ⟨?_, ?_, ?_, ?_, ?_⟩
  · rw [h.2.2.2.2.1 0 (by omega)]; decide
  · rw [h.2.2.2.2.1 1 (by omega)]; decide
  · rw [h.2.2.2.2.1 2 (by omega)]; decide
  · rw [h.2.2.2.2.1 3 (by omega)]; decide
  · exact h.2.2.2.2.2 4 (by omega) (by rw [PAGE_SIZE_eq]; omega)

/-- C5: open on an existing file whose size is not a multiple of the
page size fails with FILE_IO_ERROR and leaves the file unmodified. -/
theorem C5_open_corrupt (f : DBFile) (io : OpenOutcome)
    (h : f.size % PAGE_SIZE ≠ 0) :
    openDB (some f) io = (ErrorCode.FILE_IO_ERROR, ⟨true, 0⟩, some f) := by
  simp [openDB, h]

/-- Witness for C5 at a concrete 100 byte file. -/
theorem C5_open_corrupt_witness :
    openDB (some ⟨100, fun _ => 0⟩) okOpen =
      (ErrorCode.FILE_IO_ERROR, ⟨true, 0⟩, some ⟨100, fun _ => 0⟩) :=
  C5_open_corrupt ⟨100, fun _ => 0⟩ okOpen (by decide)

/-- C8 (amended): MAX_KEYS is derived as
(PAGE_SIZE - sizeof(PageHeader) - 4) / 8 = 510 with MIN_KEYS = 255,
but the InteriorNode page layout only provides MAX_COLUMNS = 32 key
slots and 33 child pointer slots; its arrays are not sized by MAX_KEYS. -/
theorem C8_layout :
    MAX_KEYS = (PAGE_SIZE - sizeof_PageHeader - 4) / 8 ∧
    MAX_KEYS = 510 ∧
    MIN_KEYS = MAX_KEYS / 2 ∧
    MIN_KEYS = 255 ∧
    sizeof_PageHeader = 12 ∧
    interiorKeyCapacity = MAX_COLUMNS ∧
    interiorKeyCapacity = 32 ∧
    interiorChildCapacity = MAX_COLUMNS + 1 ∧
    interiorChildCapacity = 33 := by
  refine ⟨rfl, by decide, rfl, by decide, rfl, rfl, by decide, rfl, by decide⟩

/-- C8 counterexample: the InteriorNode key array capacity is 32, which
is not MAX_KEYS = 510 as the claim states. -/
theorem C8_counterexample :
    interiorKeyCapacity = 32 ∧ MAX_KEYS = 510 ∧
    interiorKeyCapacity ≠ MAX_KEYS ∧ interiorChildCapacity ≠ MAX_KEYS + 1 := by
  refine ⟨by decide, by decide, by decide, by decide⟩

/-- C9: open on an existing file of size 0 returns SUCCESS with page
count 0 and writes nothing; a following allocatePage returns SUCCESS
with page number 0 and an all-zero page, so the file carries no
header page and no magic number. -/
theorem C9_open_zero_size :
    openDB (some emptyFile) okOpen = (ErrorCode.SUCCESS, ⟨true, 0⟩, some emptyFile) ∧
    (allocatePage ⟨true, 0⟩ emptyFile okWrite).1 = ErrorCode.SUCCESS ∧
    (allocatePage ⟨true, 0⟩ emptyFile okWrite).2.1 = some 0 ∧
    (allocatePage ⟨true, 0⟩ emptyFile okWrite).2.2.1 = ⟨true, 1⟩ ∧
    (allocatePage ⟨true, 0⟩ emptyFile okWrite).2.2.2.size = PAGE_SIZE ∧
    ∀ i, i < PAGE_SIZE → (allocatePage ⟨true, 0⟩ emptyFile okWrite).2.2.2.data i = 0 := by
  have ha := allocatePage_ok ⟨true, 0⟩ emptyFile rfl (by decide)
  have hf : (allocatePage ⟨true, 0⟩ emptyFile okWrite).2.2.2 =
      writeBytes emptyFile (pageOffset 0) zeroPage PAGE_SIZE := by rw [ha]
  refine ⟨rfl, by rw [ha], by rw [ha], by rw [ha], ?_, ?_⟩
  · rw [hf]
    have hp : pageOffset 0 = 0 := by decide
    rw [writeBytes_size, hp]
    decide
  · intro i hi
    have hp : pageOffset 0 = 0 := by decide
    rw [hf, hp, writeBytes_data_in _ _ _ _ _ (Nat.zero_le i) (by omega)]
    rfl

/-- Witness for C9: the first byte of the allocated page 0 is zero, not
the first byte of the magic constant. -/
theorem C9_open_zero_size_witness :
    (allocatePage ⟨true, 0⟩ emptyFile okWrite).2.2.2.data 0 = 0 ∧
    (allocatePage ⟨true, 0⟩ emptyFile okWrite).2.2.2.data 0 ≠
      uint32Byte MAGIC_NUMBER 0 := by
  have h0 := C9_open_zero_size.2.2.2.2.2 0 (by rw [PAGE_SIZE_eq]; omega)
  exact ⟨h0, by rw [h0]; decide⟩

/-- C10: readPage and writePage address the file at the uint32 byte
offset pageNumber * PAGE_SIZE modulo 2 ^ 32; for every page number of
at least 2 ^ 20 the computed offset wraps and is strictly smaller
than the true offset. -/
theorem C10_offset_wrap :
    (∀ n, pageOffset n = n * PAGE_SIZE % UINT32_MOD) ∧
    (∀ n, 2 ^ 20 ≤ n → n < UINT32_MOD → pageOffset n < n * PAGE_SIZE) ∧
    (∀ sm f n b, sm.isOpen = true → n < sm.pageCount →
      (writePage sm f n (some b) okWrite).2.data (pageOffset n) = b 0) ∧
    (∀ sm f n, sm.isOpen = true → n < sm.pageCount →
      pageOffset n + PAGE_SIZE ≤ f.size →
      (readPage sm f n false okRead).2 = some fun i => f.data (pageOffset n + i)) := by
  refine ⟨fun n => rfl, ?_, ?_, ?_⟩
  · intro n h1 h2
    have hlt : pageOffset n < UINT32_MOD := Nat.mod_lt _ (by rw [UINT32_MOD_eq]; omega)
    have hge : UINT32_MOD ≤ n * PAGE_SIZE := by
      calc UINT32_MOD = 2 ^ 20 * PAGE_SIZE := by rw [UINT32_MOD_eq, PAGE_SIZE_eq, two_pow_20]
      _ ≤ n * PAGE_SIZE := Nat.mul_le_mul_right _ h1
    omega
  · intro sm f n b hopen hlt
    rw [writePage_ok sm f n b hopen hlt]
    show (writeBytes f (pageOffset n) b PAGE_SIZE).data (pageOffset n) = b 0
    rw [writeBytes_data_in _ _ _ _ _ (le_refl _) (by rw [PAGE_SIZE_eq]; omega)]
    rw [Nat.sub_self]
  · intro sm f n hopen hlt hsz
    rw [readPage_ok sm f n hopen hlt hsz]

/-- Witness for C10: page number 2 ^ 20 wraps to byte offset 0, and a
write at a valid page number lands the first buffer byte at the
wrapped offset. -/
theorem C10_offset_wrap_witness :
    pageOffset 1048576 < 1048576 * PAGE_SIZE ∧
    pageOffset 1048576 = 0 ∧
    (writePage ⟨true, 2⟩ f0 1 (some fun _ => 170) okWrite).2.data (pageOffset 1) = 170 := by
  refine ⟨C10_offset_wrap.2.1 1048576 (by rw [two_pow_20]) (by rw [UINT32_MOD_eq]; omega),
    by decide,
    C10_offset_wrap.2.2.1 ⟨true, 2⟩ f0 1 (fun _ => 170) rfl (by decide)⟩

/-- C2 (amended): while the byte offset of the new page does not wrap
(call number below 2 ^ 20), allocatePage call number k + 1 on a fresh
file returns SUCCESS with the old page count k + 1, appends one
zero-filled page (the size grows to k + 2 pages and every byte of the
new page is zero), and leaves the page count at k + 2. -/
theorem C2_alloc_monotone (k : Nat) (h : k + 1 < 2 ^ 20) :
    allocResult k = (ErrorCode.SUCCESS, some (k + 1)) ∧
    getPageCount (allocN (k + 1)).1 = k + 2 ∧
    (allocN (k + 1)).2.size = (k + 2) * PAGE_SIZE ∧
    ∀ i, (k + 1) * PAGE_SIZE ≤ i → i < (k + 2) * PAGE_SIZE →
      (allocN (k + 1)).2.data i = 0 := by
  obtain ⟨h1, h2, h3⟩ := allocN_spec k (by omega)
  obtain ⟨g1, g2, g3⟩ := allocN_spec (k + 1) h
  have hs := allocStep_eq (allocN k) (k + 1) h1
    (by rw [UINT32_MOD_eq]; have h20 := two_pow_20; omega)
  refine ⟨?_, ?_, g2, ?_⟩
  · rw [allocResult_eq, hs]
  · rw [getPageCount, g1]
  · intro i hi1 hi2
    rw [g3 i]
    refine f0_data_ge i (le_trans ?_ hi1)
    calc PAGE_SIZE = 1 * PAGE_SIZE := (Nat.one_mul _).symm
    _ ≤ (k + 1) * PAGE_SIZE := Nat.mul_le_mul_right _ (by omega)

/-- Witness for C2: the first allocation on a fresh file returns page 1,
the page count becomes 2, the file grows to two pages, and the first
byte of the new page is zero. -/
theorem C2_alloc_monotone_witness :
    allocResult 0 = (ErrorCode.SUCCESS, some 1) ∧
    getPageCount (allocN 1).1 = 2 ∧
    (allocN 1).2.size = 2 * PAGE_SIZE ∧
    (allocN 1).2.data PAGE_SIZE = 0 := by
  have h := C2_alloc_monotone 0 (by norm_num)
  exact ⟨h.1, h.2.1, h.2.2.1, h.2.2.2 PAGE_SIZE (by decide) (by decide)⟩

/-- C2 counterexample: allocatePage call number 2 ^ 20 on a fresh file
returns SUCCESS with page number 2 ^ 20 = 1048576, yet the file does
not grow: the uint32 byte offset wraps to 0, so the call overwrites
page 0 instead of appending a page. -/
theorem C2_counterexample :
    allocResult 1048575 = (ErrorCode.SUCCESS, some 1048576) ∧
    (allocN 1048576).2.size = (allocN 1048575).2.size := by
  obtain ⟨h1, h2, h3⟩ := allocN_spec 1048575 (by rw [two_pow_20]; omega)
  have h1a : (allocN 1048575).1 = ⟨true, 1048576⟩ := h1
  have hs := allocStep_eq (allocN 1048575) 1048576 h1a (by rw [UINT32_MOD_eq]; omega)
  constructor
  · rw [allocResult_eq, hs]
  · have hst : allocN 1048576 = (allocStep (allocN 1048575)).2 := by
      have e : (1048576 : Nat) = 1048575 + 1 := by norm_num
      rw [e, allocN_succ]
    rw [hst, hs]
    show (writeBytes (allocN 1048575).2 (pageOffset 1048576) zeroPage PAGE_SIZE).size = _
    have hp : pageOffset 1048576 = 0 := by decide
    rw [writeBytes_size, h2, hp]
    rw [PAGE_SIZE_eq]
    omega

/-- C3 (amended): for a page number n allocated among the first N
allocations with N below 2 ^ 20, writing an arbitrary page buffer to
page n, closing, reopening the same file, and reading page n succeeds
and returns a byte-identical buffer. -/
theorem C3_round_trip (N n : Nat) (b : Page) (hn : 1 ≤ n) (hN : n ≤ N)
    (h : N < 2 ^ 20) :
    (roundTrip N n b).1 = ErrorCode.SUCCESS ∧
    ∃ p, (roundTrip N n b).2 = some p ∧ ∀ i, i < PAGE_SIZE → p i = b i := by
  obtain ⟨h1, h2, h3⟩ := allocN_spec N h
  have hoffn : pageOffset n = n * PAGE_SIZE := by
    refine pageOffset_small n ?_
    rw [PAGE_SIZE_eq, UINT32_MOD_eq]
    have h20 := two_pow_20
    omega
  have hn2 : n < (allocN N).1.pageCount := by rw [h1]; show n < N + 1; omega
  have hw := writePage_ok (allocN N).1 (allocN N).2 n b (by rw [h1]) hn2
  have hwsize : (writeBytes (allocN N).2 (pageOffset n) b PAGE_SIZE).size =
      (N + 1) * PAGE_SIZE := by
    rw [writeBytes_size, h2, hoffn]
    refine Nat.max_eq_left ?_
    rw [PAGE_SIZE_eq]
    omega
  have hmod : (writeBytes (allocN N).2 (pageOffset n) b PAGE_SIZE).size % PAGE_SIZE = 0 := by
    rw [hwsize]
    exact Nat.mul_mod_left _ _
  have ho := openDB_existing (writeBytes (allocN N).2 (pageOffset n) b PAGE_SIZE) okOpen hmod
  have hpc : (writeBytes (allocN N).2 (pageOffset n) b PAGE_SIZE).size / PAGE_SIZE %
      UINT32_MOD = N + 1 := by
    rw [hwsize, Nat.mul_div_cancel _ (by rw [PAGE_SIZE_eq]; omega), UINT32_MOD_eq]
    have h20 := two_pow_20
    omega
  have hr := readPage_ok ⟨true, N + 1⟩ (writeBytes (allocN N).2 (pageOffset n) b PAGE_SIZE)
    n rfl (by show n < N + 1; omega) (by rw [hwsize, hoffn, PAGE_SIZE_eq]; omega)
  have hrt : roundTrip N n b =
      (ErrorCode.SUCCESS, some fun i =>
        (writeBytes (allocN N).2 (pageOffset n) b PAGE_SIZE).data (pageOffset n + i)) := by
    simp only [roundTrip, hw, ho, hpc, hr]
  refine ⟨by rw [hrt], ⟨_, by rw [hrt], ?_⟩⟩
  intro i hi
  show (writeBytes (allocN N).2 (pageOffset n) b PAGE_SIZE).data (pageOffset n + i) = b i
  rw [writeBytes_data_in _ _ _ _ _ (Nat.le_add_right _ _) (by omega),
    Nat.add_sub_cancel_left]

/-- Witness for C3: writing the constant 170 page to page 1 of a
one-allocation file and reading it back after reopen yields 170. -/
theorem C3_round_trip_witness :
    (roundTrip 1 1 (fun _ => 170)).1 = ErrorCode.SUCCESS ∧
    ((roundTrip 1 1 (fun _ => 170)).2.getD zeroPage) 7 = 170 := by
  obtain ⟨hrc, p, hp, hb⟩ := C3_round_trip 1 1 (fun _ => 170)
    (by omega) (by omega) (by rw [two_pow_20]; omega)
  refine ⟨hrc, ?_⟩
  rw [hp]
  exact hb 7 (by rw [PAGE_SIZE_eq]; omega)

/-- Symbolic form of a failing round trip: when the write stays inside
the current file (so the size is unchanged) and the reopened page
count does not exceed the page number, the final read is rejected. -/
lemma roundTrip_invalid (N n S pc : Nat) (b : Page)
    (h1 : (allocN N).1 = ⟨true, pc⟩) (h2 : n < pc)
    (hS : (allocN N).2.size = S)
    (hin : pageOffset n + PAGE_SIZE ≤ S)
    (hcount : S / PAGE_SIZE % UINT32_MOD ≤ n)
    (hmod : S % PAGE_SIZE = 0) :
    roundTrip N n b = (ErrorCode.INVALID_INPUT, none) := by
  have hw := writePage_ok (allocN N).1 (allocN N).2 n b (by rw [h1])
    (by rw [h1]; exact h2)
  have hwsize : (writeBytes (allocN N).2 (pageOffset n) b PAGE_SIZE).size = S := by
    rw [writeBytes_size, hS]
    exact Nat.max_eq_left hin
  have hmod2 : (writeBytes (allocN N).2 (pageOffset n) b PAGE_SIZE).size % PAGE_SIZE = 0 := by
    rw [hwsize]
    exact hmod
  have ho := openDB_existing (writeBytes (allocN N).2 (pageOffset n) b PAGE_SIZE)
    okOpen hmod2
  have hr := readPage_out_of_range
    ⟨true, (writeBytes (allocN N).2 (pageOffset n) b PAGE_SIZE).size / PAGE_SIZE % UINT32_MOD⟩
    (writeBytes (allocN N).2 (pageOffset n) b PAGE_SIZE) n false okRead
    (by show (writeBytes (allocN N).2 (pageOffset n) b PAGE_SIZE).size / PAGE_SIZE %
          UINT32_MOD ≤ n
        rw [hwsize]
        exact hcount)
  simp only [roundTrip, hw, ho, hr]

/-- C3 counterexample: page 2 ^ 20 = 1048576 is an allocated page
(allocatePage call number 2 ^ 20 returned it with SUCCESS), but the
write, close, reopen, read sequence on it does not succeed: the reopen
recomputes the page count as 2 ^ 20 from the unchanged file size, so
the read fails with INVALID_INPUT instead of returning the buffer. -/
theorem C3_counterexample :
    allocResult 1048575 = (ErrorCode.SUCCESS, some 1048576) ∧
    roundTrip 1048576 1048576 (fun _ => 170) = (ErrorCode.INVALID_INPUT, none) := by
  obtain ⟨h1, h2, h3⟩ := allocN_spec 1048575 (by rw [two_pow_20]; omega)
  have h1a : (allocN 1048575).1 = ⟨true, 1048576⟩ := h1
  have hs := allocStep_eq (allocN 1048575) 1048576 h1a (by rw [UINT32_MOD_eq]; omega)
  have hst : allocN 1048576 = (allocStep (allocN 1048575)).2 := by
    have e : (1048576 : Nat) = 1048575 + 1 := by norm_num
    rw [e, allocN_succ]
  have hsm : (allocN 1048576).1 = ⟨true, 1048577⟩ := by rw [hst, hs]
  have hp : pageOffset 1048576 = 0 := by decide
  have hsize : (allocN 1048576).2.size = 1048576 * PAGE_SIZE := by
    rw [hst, hs]
    show (writeBytes (allocN 1048575).2 (pageOffset 1048576) zeroPage PAGE_SIZE).size = _
    rw [writeBytes_size, h2, hp, PAGE_SIZE_eq]
    omega
  constructor
  · rw [allocResult_eq, hs]
  · exact roundTrip_invalid 1048576 1048576 (1048576 * PAGE_SIZE) 1048577 (fun _ => 170)
      hsm (by omega) hsize (by rw [hp]; decide) (by decide) (Nat.mul_mod_left _ _)

/-- C4 (amended): readPage and writePage reject a closed handle, a null
buffer, or an out-of-range page number with INVALID_INPUT and leave
the file untouched; on an in-range call a seek failure, a write
failure, or a read failure without the end-of-file bit yields
FILE_IO_ERROR, while a read that fails by running into the end of the
file yields SUCCESS, as does a fully successful call. -/
theorem C4_error_paths (sm : StorageManager) (f : DBFile) (n : Nat) (b : Page)
    (ioR : ReadOutcome) (ioW : WriteOutcome) :
    (sm.isOpen = false →
      readPage sm f n false ioR = (ErrorCode.INVALID_INPUT, none) ∧
      writePage sm f n (some b) ioW = (ErrorCode.INVALID_INPUT, f)) ∧
    (readPage sm f n true ioR = (ErrorCode.INVALID_INPUT, none) ∧
      writePage sm f n none ioW = (ErrorCode.INVALID_INPUT, f)) ∧
    (sm.pageCount ≤ n →
      readPage sm f n false ioR = (ErrorCode.INVALID_INPUT, none) ∧
      writePage sm f n (some b) ioW = (ErrorCode.INVALID_INPUT, f)) ∧
    (sm.isOpen = true → n < sm.pageCount →
      ((ioR.seekFail = true ∨ ioR.readFail = true) →
        (readPage sm f n false ioR).1 = ErrorCode.FILE_IO_ERROR) ∧
      ((ioW.seekFail = true ∨ ioW.writeFail = true) →
        (writePage sm f n (some b) ioW).1 = ErrorCode.FILE_IO_ERROR) ∧
      (ioR = okRead → f.size < pageOffset n + PAGE_SIZE →
        (readPage sm f n false ioR).1 = ErrorCode.SUCCESS) ∧
      (ioR = okRead → pageOffset n + PAGE_SIZE ≤ f.size →
        (readPage sm f n false ioR).1 = ErrorCode.SUCCESS) ∧
      (ioW = okWrite → (writePage sm f n (some b) ioW).1 = ErrorCode.SUCCESS)) := by
  refine ⟨?_, ⟨?_, rfl⟩, ?_, ?_⟩
  · intro hclosed
    exact ⟨by simp [readPage, hclosed], by simp [writePage, hclosed]⟩
  · simp [readPage]
  · intro hge
    exact ⟨readPage_out_of_range sm f n false ioR hge,
      writePage_out_of_range sm f n b ioW hge⟩
  · intro hopen hlt
    have hnle := Nat.not_le.mpr hlt
    refine ⟨?_, ?_, ?_, ?_, ?_⟩
    · rintro (hf | hf)
      · simp [readPage, hopen, hnle, hf]
      · cases hsk : ioR.seekFail with
        | true => simp [readPage, hopen, hnle, hsk]
        | false => simp [readPage, hopen, hnle, hsk, hf]
    · rintro (hf | hf)
      · simp [writePage, hopen, hnle, hf]
      · cases hsk : ioW.seekFail with
        | true => simp [writePage, hopen, hnle, hsk]
        | false => simp [writePage, hopen, hnle, hsk, hf]
    · rintro rfl hsz
      simp [readPage, okRead, hopen, hnle, hsz]
    · rintro rfl hsz
      simp [readPage, okRead, hopen, hnle, Nat.not_lt.mpr hsz]
    · rintro rfl
      simp [writePage, okWrite, hopen, hnle]

/-- Witness for C4 at concrete states: a closed handle, a null buffer,
an out-of-range page, injected seek and write failures, and plain
successes. -/
theorem C4_error_paths_witness :
    readPage ⟨false, 5⟩ f0 0 false okRead = (ErrorCode.INVALID_INPUT, none) ∧
    writePage sm0 f0 0 none okWrite = (ErrorCode.INVALID_INPUT, f0) ∧
    readPage sm0 f0 1 false okRead = (ErrorCode.INVALID_INPUT, none) ∧
    (readPage sm0 f0 0 false ⟨true, false⟩).1 = ErrorCode.FILE_IO_ERROR ∧
    (writePage sm0 f0 0 (some zeroPage) ⟨false, true⟩).1 = ErrorCode.FILE_IO_ERROR ∧
    (readPage sm0 f0 0 false okRead).1 = ErrorCode.SUCCESS ∧
    (writePage sm0 f0 0 (some zeroPage) okWrite).1 = ErrorCode.SUCCESS := by
  refine ⟨((C4_error_paths ⟨false, 5⟩ f0 0 zeroPage okRead okWrite).1 rfl).1,
    (C4_error_paths sm0 f0 0 zeroPage okRead okWrite).2.1.2,
    ((C4_error_paths sm0 f0 1 zeroPage okRead okWrite).2.2.1 (by decide)).1,
    ((C4_error_paths sm0 f0 0 zeroPage ⟨true, false⟩ okWrite).2.2.2 rfl (by decide)).1
      (Or.inl rfl),
    ((C4_error_paths sm0 f0 0 zeroPage okRead ⟨false, true⟩).2.2.2 rfl (by decide)).2.1
      (Or.inr rfl),
    ((C4_error_paths sm0 f0 0 zeroPage okRead okWrite).2.2.2 rfl (by decide)).2.2.2.1
      rfl (by decide),
    ((C4_error_paths sm0 f0 0 zeroPage okRead okWrite).2.2.2 rfl (by decide)).2.2.2.2
      rfl⟩

/-- C4 counterexample: after a fresh open followed by an allocatePage
call whose page write failed, the page count is 2 while the file
still holds one page; reading page 1 then seeks past the end of the
file and the read fails with the end-of-file bit set, which the
source does not treat as an error: the call returns SUCCESS with no
full page read, not FILE_IO_ERROR. -/
theorem C4_counterexample :
    (allocatePage sm0 f0 ⟨false, true⟩).1 = ErrorCode.FILE_IO_ERROR ∧
    (allocatePage sm0 f0 ⟨false, true⟩).2.2.1 = ⟨true, 2⟩ ∧
    (allocatePage sm0 f0 ⟨false, true⟩).2.2.2.size < pageOffset 1 + PAGE_SIZE ∧
    readPage ⟨true, 2⟩ (allocatePage sm0 f0 ⟨false, true⟩).2.2.2 1 false okRead =
      (ErrorCode.SUCCESS, none) := by
  exact ⟨by decide, by decide, by decide, rfl⟩

/-- writePage only ever returns SUCCESS, FILE_IO_ERROR or INVALID_INPUT. -/
lemma writePage_rc (sm : StorageManager) (f : DBFile) (n : Nat)
    (b : Option Page) (io : WriteOutcome) :
    (writePage sm f n b io).1 = ErrorCode.SUCCESS ∨
    (writePage sm f n b io).1 = ErrorCode.FILE_IO_ERROR ∨
    (writePage sm f n b io).1 = ErrorCode.INVALID_INPUT := by
  rcases b with _ | b
  · right; right; rfl
  · simp only [writePage]
    split
    · right; right; rfl
    · split
      · right; right; rfl
      · split
        · right; left; rfl
        · split
          · right; left; rfl
          · left; rfl

/-- C7 (amended): allocatePage never returns PAGE_ALLOCATION_FAILURE;
when extending the file fails (seek or write failure while writing
the new zero page), it returns FILE_IO_ERROR, the code propagated
from writePage. -/
theorem C7_alloc_error_code :
    (∀ sm f io, (allocatePage sm f io).1 ≠ ErrorCode.PAGE_ALLOCATION_FAILURE) ∧
    (∀ sm f io, sm.isOpen = true → sm.pageCount + 1 < UINT32_MOD →
      (io.seekFail = true ∨ io.writeFail = true) →
      (allocatePage sm f io).1 = ErrorCode.FILE_IO_ERROR) := by
  constructor
  · intro sm f io
    simp only [allocatePage]
    split
    · exact fun h => nomatch h
    · dsimp only
      rcases writePage_rc ⟨sm.isOpen, (sm.pageCount + 1) % UINT32_MOD⟩ f
        sm.pageCount (some zeroPage) io with h | h | h <;> rw [h] <;> decide
  · intro sm f io hopen hlt hfail
    have hm : (sm.pageCount + 1) % UINT32_MOD = sm.pageCount + 1 := Nat.mod_eq_of_lt hlt
    have hc : ¬(sm.pageCount + 1 ≤ sm.pageCount) := by omega
    rcases hfail with hf | hf
    · simp [allocatePage, writePage, hopen, hm, hc, hf]
    · cases hsk : io.seekFail with
      | true => simp [allocatePage, writePage, hopen, hm, hc, hsk]
      | false => simp [allocatePage, writePage, hopen, hm, hc, hsk, hf]

/-- Witness for C7: a failed write during allocation on a fresh file
gives FILE_IO_ERROR, and no input makes allocatePage produce
PAGE_ALLOCATION_FAILURE. -/
theorem C7_alloc_error_code_witness :
    (allocatePage sm0 f0 ⟨true, false⟩).1 = ErrorCode.FILE_IO_ERROR ∧
    (allocatePage ⟨false, 5⟩ f0 okWrite).1 ≠ ErrorCode.PAGE_ALLOCATION_FAILURE := by
  exact ⟨C7_alloc_error_code.2 sm0 f0 ⟨true, false⟩ rfl (by decide) (Or.inl rfl),
    C7_alloc_error_code.1 ⟨false, 5⟩ f0 okWrite⟩

/-- C7 counterexample: when the zero page write fails, allocatePage on a
fresh file returns FILE_IO_ERROR, which is not the
PAGE_ALLOCATION_FAILURE code the claim promises. -/
theorem C7_counterexample :
    (allocatePage sm0 f0 ⟨false, true⟩).1 = ErrorCode.FILE_IO_ERROR ∧
    (allocatePage sm0 f0 ⟨false, true⟩).1 ≠ ErrorCode.PAGE_ALLOCATION_FAILURE := by
  exact ⟨by decide, by decide⟩

/-- C6 (amended): starting from a successful open, the page count equals
the file size divided by the page size in every reachable state,
provided every allocatePage call in the sequence succeeds from a page
count below 2 ^ 20 (so its byte offset does not wrap); failed or
rejected readPage, writePage and freePage calls are all allowed. -/
theorem C6_pagecount_invariant (w : Option DBFile) (io : OpenOutcome) (ops : List Op)
    (sm1 : StorageManager) (f1 : DBFile)
    (hopen : openDB w io = (ErrorCode.SUCCESS, sm1, some f1))
    (hsz : f1.size / PAGE_SIZE < UINT32_MOD)
    (hok : okRun (sm1, f1) ops) :
    getPageCount (runOps (sm1, f1) ops).1 = (runOps (sm1, f1) ops).2.size / PAGE_SIZE := by
  have hc : consistent (sm1, f1) := by
    cases w with
    | none =>
        cases hcf : io.createFail with
        | true => simp [openDB, hcf] at hopen
        | false =>
            cases hrf : io.reopenFail with
            | true => simp [openDB, hcf, hrf] at hopen
            | false =>
                simp only [openDB, hcf, hrf, Bool.false_eq_true, if_false,
                  Prod.mk.injEq, Option.some.injEq] at hopen
                obtain ⟨-, hsm, hf⟩ := hopen
                rw [← hsm, ← hf]
                exact ⟨by decide, by decide⟩
    | some f =>
        rcases Decidable.em (f.size % PAGE_SIZE = 0) with hm | hm
        · rw [openDB_existing f io hm] at hopen
          simp only [Prod.mk.injEq, Option.some.injEq] at hopen
          obtain ⟨-, hsm, hf⟩ := hopen
          subst hf
          refine ⟨?_, hm⟩
          rw [← hsm]
          exact Nat.mod_eq_of_lt hsz
        · simp [openDB, hm] at hopen
  exact (runOps_consistent (sm1, f1) ops hc hok).1

/-- Witness for C6: a fresh open followed by one successful allocation
has page count 2 and file size 2 pages. -/
theorem C6_pagecount_invariant_witness :
    getPageCount (runOps (sm0, f0) [Op.alloc okWrite]).1 =
      (runOps (sm0, f0) [Op.alloc okWrite]).2.size / PAGE_SIZE := by
  refine C6_pagecount_invariant none okOpen [Op.alloc okWrite] sm0 f0 rfl (by decide)
    ⟨⟨by decide, by decide⟩, trivial⟩

/-- C6 counterexample: the state reached by a fresh open followed by an
allocatePage call whose page write failed has page count 2 but a file
of one page, so the claimed identity fails in a reachable state
produced by a call that returned an error. -/
theorem C6_counterexample :
    openDB none okOpen = (ErrorCode.SUCCESS, sm0, some f0) ∧
    (runOp (sm0, f0) (Op.alloc ⟨false, true⟩)).1 = ErrorCode.FILE_IO_ERROR ∧
    getPageCount (runOp (sm0, f0) (Op.alloc ⟨false, true⟩)).2.1 = 2 ∧
    (runOp (sm0, f0) (Op.alloc ⟨false, true⟩)).2.2.size / PAGE_SIZE = 1 := by
  exact ⟨rfl, by decide, by decide, by decide⟩

end TinyDb
